import Mathlib

/-!
Shallow embedding of `src/sweejs/sweejs.cc` (the sweep-sdk Node.js binding).

The binding wraps a LIDAR driver library.  The C++ file defines one class
`Sweep` holding a single member `std::shared_ptr<sweep_device> device`,
two constructors, and seven NAN-bound methods
(`startScanning`, `stopScanning`, `scan`, `getMotorSpeed`, `setMotorSpeed`,
`getSampleRate`, `reset`).  The asynchronous `scan` queues an
`AsyncScanWorker` (a `Nan::AsyncWorker`) whose members are
`Sweep& sweep; int32_t timeout; sweep_scan_s scan;` — a plain reference to
the wrapper object, no copy of the shared pointer.

The driver is opaque; we model it as a record of scripted responses
(`Driver`).  Every driver entry point a method may invoke is recorded in an
emitted list of `DriverCall`s, so that claims about "no driver call is
attempted", call ordering, and error-resource release are statable.
-/

/-- A JavaScript value as far as the binding's argument checks observe it:
`info[i]->IsNumber()`, `IsString()`, `IsFunction()`, and the `Nan::To<int32_t>`
coercion.  Out-of-range `info[i]` yields `undefined`. -/
inductive JsVal
  | num (n : Int)
  | str (s : String)
  | fn
  | undef
  | other
deriving DecidableEq, Repr

def JsVal.isNumber : JsVal → Bool
  | JsVal.num _ => true
  | _ => false

def JsVal.isString : JsVal → Bool
  | JsVal.str _ => true
  | _ => false

def JsVal.isFunction : JsVal → Bool
  | JsVal.fn => true
  | _ => false

/-- `Nan::To<int32_t>(v).FromJust()`: ECMAScript ToInt32.  A number is
wrapped into the signed 32-bit range; the non-number values the binding can
reach here (`undefined`, strings, functions) coerce through NaN to 0. -/
def JsVal.toInt32 : JsVal → Int
  | JsVal.num n => (n + 2 ^ 31) % 2 ^ 32 - 2 ^ 31
  | _ => 0

/-- `Nan::Utf8String{info[0]}` contents for the values reaching the
configured constructor (the string argument). -/
def JsVal.asString : JsVal → String
  | JsVal.str s => s
  | _ => ""

/-- One measurement as the driver reports it: `sweep_scan_get_angle` and
`sweep_scan_get_distance` return integral values for a sample index. -/
structure Sample where
  angle : Int
  distance : Int
deriving DecidableEq, Repr

instance : Inhabited Sample := ⟨⟨0, 0⟩⟩

/-- One record of the JS array built by `HandleOKCallback`:
`{angle: ..., distance: ...}`. -/
structure Record where
  angle : Int
  distance : Int
deriving DecidableEq, Repr

/-- Driver entry points the binding can invoke, as they appear at the
FFI boundary in `sweejs.cc`. -/
inductive DriverCall
  | constructSimple
  | construct (port : String) (baud : Int) (timeout : Int)
  | destructDevice
  | startScanning
  | stopScanning
  | getScan (timeout : Int)
  | getMotorSpeed
  | setMotorSpeed (hz : Int)
  | getSampleRate
  | reset
  | errorMessage
  | errorDestruct
deriving DecidableEq, Repr

/-- Scripted responses of the opaque driver library.  An `Option String`
field is the error out-parameter of a command (`some msg` means the driver
set a non-null `sweep_error_s` whose `sweep_error_message` is `msg`);
`Except String` carries either the error message or the produced value.
`constructSimpleOk` / `constructConfigOk` tell whether device construction
sets the error out-parameter. -/
structure Driver where
  constructSimpleOk : Bool
  constructConfigOk : String → Int → Int → Bool
  startScanningErr : Option String
  stopScanningErr : Option String
  motorSpeed : Except String Int
  setMotorSpeedErr : Int → Option String
  sampleRate : Except String Int
  resetErr : Option String
  getScanRes : Int → Except String (List Sample)

/-- Outcome of one synchronous NAN method call, as observed by the caller:
a thrown `TypeError` from the argument check, a thrown error carrying the
driver's message (`Nan::ThrowError(sweep_error_message(error))`), or a
normal return (with the integer the getters place in the return value). -/
inductive SyncOutcome
  | typeError (msg : String)
  | thrown (msg : String)
  | ret (v : Option Int)
deriving DecidableEq, Repr

/-- `NAN_METHOD(Sweep::startScanning)`, sweejs.cc lines 102-116. -/
def startScanning (d : Driver) (args : List JsVal) : SyncOutcome × List DriverCall :=
  if args.length != 0 then (SyncOutcome.typeError "No arguments expected", [])
  else
    match d.startScanningErr with
    | some m => (SyncOutcome.thrown m,
        [DriverCall.startScanning, DriverCall.errorMessage, DriverCall.errorDestruct])
    | none => (SyncOutcome.ret none, [DriverCall.startScanning])

/-- `NAN_METHOD(Sweep::stopScanning)`, sweejs.cc lines 118-132. -/
def stopScanning (d : Driver) (args : List JsVal) : SyncOutcome × List DriverCall :=
  if args.length != 0 then (SyncOutcome.typeError "No arguments expected", [])
  else
    match d.stopScanningErr with
    | some m => (SyncOutcome.thrown m,
        [DriverCall.stopScanning, DriverCall.errorMessage, DriverCall.errorDestruct])
    | none => (SyncOutcome.ret none, [DriverCall.stopScanning])

/-- `NAN_METHOD(Sweep::getMotorSpeed)`, sweejs.cc lines 195-212. -/
def getMotorSpeed (d : Driver) (args : List JsVal) : SyncOutcome × List DriverCall :=
  if args.length != 0 then (SyncOutcome.typeError "No arguments expected", [])
  else
    match d.motorSpeed with
    | Except.error m => (SyncOutcome.thrown m,
        [DriverCall.getMotorSpeed, DriverCall.errorMessage, DriverCall.errorDestruct])
    | Except.ok v => (SyncOutcome.ret (some v), [DriverCall.getMotorSpeed])

/-- `NAN_METHOD(Sweep::setMotorSpeed)`, sweejs.cc lines 214-231.
The source guard is `if (info.Length() != 1 && !info[0]->IsNumber())` —
a conjunction (`&&`), transcribed as written. -/
def setMotorSpeed (d : Driver) (args : List JsVal) : SyncOutcome × List DriverCall :=
  if args.length != 1 && !(args.headD JsVal.undef).isNumber then
    (SyncOutcome.typeError "Motor speed in Hz as number expected", [])
  else
    let speed := (args.headD JsVal.undef).toInt32
    match d.setMotorSpeedErr speed with
    | some m => (SyncOutcome.thrown m,
        [DriverCall.setMotorSpeed speed, DriverCall.errorMessage, DriverCall.errorDestruct])
    | none => (SyncOutcome.ret none, [DriverCall.setMotorSpeed speed])

/-- `NAN_METHOD(Sweep::getSampleRate)`, sweejs.cc lines 233-250. -/
def getSampleRate (d : Driver) (args : List JsVal) : SyncOutcome × List DriverCall :=
  if args.length != 0 then (SyncOutcome.typeError "No arguments expected", [])
  else
    match d.sampleRate with
    | Except.error m => (SyncOutcome.thrown m,
        [DriverCall.getSampleRate, DriverCall.errorMessage, DriverCall.errorDestruct])
    | Except.ok v => (SyncOutcome.ret (some v), [DriverCall.getSampleRate])

/-- `NAN_METHOD(Sweep::reset)`, sweejs.cc lines 252-267. -/
def reset (d : Driver) (args : List JsVal) : SyncOutcome × List DriverCall :=
  if args.length != 0 then (SyncOutcome.typeError "No arguments expected", [])
  else
    match d.resetErr with
    | some m => (SyncOutcome.thrown m,
        [DriverCall.reset, DriverCall.errorMessage, DriverCall.errorDestruct])
    | none => (SyncOutcome.ret none, [DriverCall.reset])

/-- The `AsyncScanWorker` declared inside `NAN_METHOD(Sweep::scan)`,
sweejs.cc lines 144-189.  Its C++ members are
`Sweep& sweep; int32_t timeout; sweep_scan_s scan;`: a plain reference to
the wrapper object and the timeout.  The constructor copies NO shared
pointer — the worker's only link to the device is through the `Sweep&`
reference, so it confers no ownership; we therefore keep just the data the
worker owns.  (`scan` is filled in by `Execute`; it appears in
`ExecResult`.) -/
structure AsyncScanWorker where
  timeout : Int
deriving DecidableEq, Repr

/-- State of the worker after `Execute` ran on the background thread:
`errMsg` is the `Nan::AsyncWorker` error message set by `SetErrorMessage`
(none if untouched), `scanRes` the `sweep_scan_s scan` member (left
unassigned — `none` — on the error path, where it is never read), and
`calls` the driver calls `Execute` performed. -/
structure ExecResult where
  errMsg : Option String
  scanRes : Option (List Sample)
  calls : List DriverCall

/-- `AsyncScanWorker::Execute`, sweejs.cc lines 148-156: one
`sweep_device_get_scan(sweep.device.get(), timeout, &error)`; on error the
message is read into `SetErrorMessage` and the error handle destructed. -/
def AsyncScanWorker.execute (d : Driver) (w : AsyncScanWorker) : ExecResult :=
  match d.getScanRes w.timeout with
  | Except.ok samples =>
      { errMsg := none, scanRes := some samples, calls := [DriverCall.getScan w.timeout] }
  | Except.error m =>
      { errMsg := some m, scanRes := none,
        calls := [DriverCall.getScan w.timeout, DriverCall.errorMessage, DriverCall.errorDestruct] }

/-- `sweep_scan_get_number_of_samples` on the scan handle: the driver
reports the sample count of the revolution. -/
def sweep_scan_get_number_of_samples (s : List Sample) : Nat := s.length

/-- `sweep_scan_get_angle(scan, i)`. -/
def sweep_scan_get_angle (s : List Sample) (i : Nat) : Int := (s.getD i default).angle

/-- `sweep_scan_get_distance(scan, i)`. -/
def sweep_scan_get_distance (s : List Sample) (i : Nat) : Int := (s.getD i default).distance

/-- The array-building loop of `AsyncScanWorker::HandleOKCallback`,
sweejs.cc lines 158-184: an array of length `n` where entry `i` is the
record `{angle: get_angle(scan, i), distance: get_distance(scan, i)}`. -/
def handleOKCallback (s : List Sample) : List Record :=
  (List.range (sweep_scan_get_number_of_samples s)).map
    fun i => { angle := sweep_scan_get_angle s i, distance := sweep_scan_get_distance s i }

/-- What the single-shot continuation receives: `HandleOKCallback` passes
`argv = {Nan::Null(), samples}` (error slot null, the sample array);
the error path passes the error as the first slot with no sample array. -/
inductive CallbackInvocation
  | ok (records : List Record)
  | err (msg : String)
deriving DecidableEq, Repr

/-- `Nan::AsyncWorker::WorkComplete` dispatch (the base-class behaviour the
worker inherits): if no error message was set, `HandleOKCallback` runs and
the continuation gets `(null, samples)`; otherwise `HandleErrorCallback`
delivers the stored error message as the continuation's first slot and no
samples. -/
def workComplete (r : ExecResult) : CallbackInvocation :=
  match r.errMsg with
  | none => CallbackInvocation.ok (handleOKCallback (r.scanRes.getD []))
  | some m => CallbackInvocation.err m

-- Shared ownership of the native device resource, and the session state.

/-- The `std::shared_ptr<sweep_device>` control block: how many owners hold
the pointer, and whether the deleter (`sweep_device_destruct`) has run.
The deleter runs exactly when the count drops to zero. -/
structure SharedDevice where
  refCount : Nat
  destructed : Bool
deriving DecidableEq, Repr

/-- State of one wrapper object together with its queued worker:
`device` is the `Sweep::device` member's control block, `worker` the
outstanding `AsyncScanWorker` if one was queued, `sessionAlive` whether the
`Sweep` object still exists, `continuationFired` whether the worker's
callback has been invoked. -/
structure World where
  device : SharedDevice
  worker : Option AsyncScanWorker
  sessionAlive : Bool
  continuationFired : Bool
deriving DecidableEq, Repr

/-- State right after a successful `Sweep::Sweep` constructor, sweejs.cc
lines 14-36: the `arc` shared pointer is created with one owner and moved
into the `device` member. -/
def World.init : World :=
  { device := { refCount := 1, destructed := false },
    worker := none, sessionAlive := true, continuationFired := false }

/-- Destruction of the `Sweep` wrapper (its implicit destructor destroys
the `device` member): one owner of the shared pointer goes away; if the
count reaches zero the deleter calls `sweep_device_destruct`. -/
def World.destroySession (w : World) : World :=
  let rc := w.device.refCount - 1
  { w with sessionAlive := false,
           device := { refCount := rc, destructed := w.device.destructed || rc == 0 } }

/-- Completion of the queued worker: the continuation fires and the worker
is destroyed. -/
def World.completeTask (w : World) : World :=
  { w with worker := none, continuationFired := true }

/-- The seven NAN-bound methods of `Sweep`. -/
inductive Method
  | startScanning
  | stopScanning
  | scan
  | getMotorSpeed
  | setMotorSpeed
  | getSampleRate
  | reset
deriving DecidableEq, Repr

/-- Effect of one method call on the wrapper state, together with its
caller-visible outcome and the driver calls issued on the calling thread.
The six synchronous methods only read `self->device.get()` and never assign
any member, so they leave the state unchanged.  `Sweep::scan`
(sweejs.cc lines 134-193) checks its arguments, then constructs
`AsyncScanWorker{*self, callback, timeout}` and queues it via
`Nan::AsyncQueueWorker`, returning at once — it issues no driver call on
the calling thread and copies no shared pointer. -/
def Sweep.step (d : Driver) (m : Method) (args : List JsVal) (w : World) :
    World × SyncOutcome × List DriverCall :=
  match m with
  | Method.startScanning => (w, startScanning d args)
  | Method.stopScanning => (w, stopScanning d args)
  | Method.getMotorSpeed => (w, getMotorSpeed d args)
  | Method.setMotorSpeed => (w, setMotorSpeed d args)
  | Method.getSampleRate => (w, getSampleRate d args)
  | Method.reset => (w, reset d args)
  | Method.scan =>
      if args.length != 2 || !(args.headD JsVal.undef).isNumber
          || !((args.drop 1).headD JsVal.undef).isFunction then
        (w, SyncOutcome.typeError "Timeout and callback expected", [])
      else
        ({ w with worker := some { timeout := (args.headD JsVal.undef).toInt32 } },
         SyncOutcome.ret none, [])

-- Constructors and `Sweep::New`.

/-- `Sweep::Sweep()`, sweejs.cc lines 14-24: calls
`sweep_device_construct_simple(&error)`; if the driver set the error
out-parameter, throws `SweepError{"device construction failed"}` — reading
no error message and destructing neither the error handle nor the device
pointer; otherwise wraps the pointer in the shared pointer. -/
def Sweep.ctorSimple (d : Driver) : Except String World × List DriverCall :=
  if d.constructSimpleOk then (Except.ok World.init, [DriverCall.constructSimple])
  else (Except.error "device construction failed", [DriverCall.constructSimple])

/-- `Sweep::Sweep(port, baudrate, timeout)`, sweejs.cc lines 26-36: same
shape over `sweep_device_construct(port, baudrate, timeout, &error)`. -/
def Sweep.ctorConfig (d : Driver) (port : String) (baud : Int) (timeout : Int) :
    Except String World × List DriverCall :=
  if d.constructConfigOk port baud timeout then
    (Except.ok World.init, [DriverCall.construct port baud timeout])
  else (Except.error "device construction failed", [DriverCall.construct port baud timeout])

/-- Result of `NAN_METHOD(Sweep::New)` on a construct call: a thrown
`TypeError` from the argument-shape check, the rethrown `SweepError`
message, or the wrapped object. -/
inductive NewOutcome
  | typeError (msg : String)
  | thrown (msg : String)
  | wrapped (w : World)
deriving Repr

/-- `NAN_METHOD(Sweep::New)`, sweejs.cc lines 61-100, on the
`IsConstructCall` path: the argument shape is checked first
(`simple` = no arguments, `config` = string, number, number); only then is
a constructor run, and a `SweepError` is converted into `Nan::ThrowError`
with no wrapping.  (The UTF-8 conversion of the port string is modelled as
always succeeding.) -/
def Sweep.New (d : Driver) (args : List JsVal) : NewOutcome × List DriverCall :=
  let simple := args.length == 0
  let config := args.length == 3 && (args.headD JsVal.undef).isString
      && ((args.drop 1).headD JsVal.undef).isNumber
      && ((args.drop 2).headD JsVal.undef).isNumber
  if !simple && !config then
    (NewOutcome.typeError "No arguments for auto-detection or serial port, baudrate, timeout expected", [])
  else if simple then
    match Sweep.ctorSimple d with
    | (Except.ok w, cs) => (NewOutcome.wrapped w, cs)
    | (Except.error m, cs) => (NewOutcome.thrown m, cs)
  else
    match Sweep.ctorConfig d ((args.headD JsVal.undef).asString)
        ((args.drop 1).headD JsVal.undef).toInt32
        ((args.drop 2).headD JsVal.undef).toInt32 with
    | (Except.ok w, cs) => (NewOutcome.wrapped w, cs)
    | (Except.error m, cs) => (NewOutcome.thrown m, cs)

-- Execution trace of the sequencing scenario `scan(t, cb); getMotorSpeed()`.

/-- Events visible at the device/transport boundary plus the two
scheduling marks the concurrency claims speak about. -/
inductive Event
  | queuedScan
  | call (c : DriverCall)
  | fired
deriving DecidableEq, Repr

/-- The trace produced by issuing `scan(t, cb)` and then immediately
`getMotorSpeed()` on the caller's thread, under the source's behaviour:
`Sweep::scan` only queues the worker and returns (line 192);
`Sweep::getMotorSpeed` then performs its driver call during the same turn
(lines 195-212); the queued worker's `Execute` runs on the thread pool and
its callback fires on a later event-loop iteration (here scheduled after
the synchronous command — a legal schedule, and the callback can never
precede the end of the caller's turn). -/
def scanThenGetMotorSpeed (d : Driver) (t : Int) : List Event :=
  [Event.queuedScan]
    ++ (getMotorSpeed d []).2.map Event.call
    ++ (AsyncScanWorker.execute d { timeout := t }).calls.map Event.call
    ++ [Event.fired]

-- Concrete drivers used for explicit evaluations.

/-- A driver whose every command succeeds; the scan of a revolution
returns two scripted samples. -/
def testDriver : Driver :=
  { constructSimpleOk := true
    constructConfigOk := fun _ _ _ => true
    startScanningErr := none
    stopScanningErr := none
    motorSpeed := Except.ok 5
    setMotorSpeedErr := fun _ => none
    sampleRate := Except.ok 500
    resetErr := none
    getScanRes := fun _ => Except.ok [⟨90, 20⟩, ⟨180, 40⟩] }

/-- A driver that fails device construction and times out on scans. -/
def failDriver : Driver :=
  { constructSimpleOk := false
    constructConfigOk := fun _ _ _ => false
    startScanningErr := some "Device failed to start scanning"
    stopScanningErr := some "Device failed to stop scanning"
    motorSpeed := Except.error "Device failed to retrieve motor speed"
    setMotorSpeedErr := fun _ => some "Device failed to set motor speed"
    sampleRate := Except.error "Device failed to retrieve sample rate"
    resetErr := some "Device failed to reset"
    getScanRes := fun _ => Except.error "Device timed out waiting for scan" }

-- Helper lemma for the marshalling loop.

/-- Indexed read-out of a whole list equals the list: mapping `f` over the
elements read back by position from `l` reproduces `l.map f`. -/
theorem range_map_getD {α β : Type} (l : List α) (d : α) (f : α → β) :
    (List.range l.length).map (fun i => f (l.getD i d)) = l.map f := by
  induction l with
  | nil => rfl
  | cons a l ih =>
      simp only [List.length_cons, List.range_succ_eq_map, List.map_cons, List.map_map,
        Function.comp, List.getD_cons_zero, List.getD_cons_succ, List.cons.injEq, true_and]
      exact ih

-- Claim theorems.

/-- Claim C1, counterexample: queue a scan task, then destroy the Session.
The device is destructed (`sweep_device_destruct` ran) while the worker is
still outstanding and its continuation has not fired — destruction of the
Session does NOT keep the device alive for the task. -/
theorem scan_then_destroy_releases_device :
    ((Sweep.step testDriver Method.scan [JsVal.num 5000, JsVal.fn] World.init).1.destroySession).device.destructed = true ∧
    ((Sweep.step testDriver Method.scan [JsVal.num 5000, JsVal.fn] World.init).1.destroySession).worker.isSome = true ∧
    ((Sweep.step testDriver Method.scan [JsVal.num 5000, JsVal.fn] World.init).1.destroySession).continuationFired = false := by
  refine ⟨rfl, rfl, rfl⟩

/-- Claim C1, amended: the in-flight `AsyncScanWorker` is NOT a co-owner of
the device — it stores only a plain reference, so queueing a scan leaves
the shared-pointer state untouched; consequently, when the Session is the
sole owner, destroying it releases the device handle even while the task is
outstanding. -/
theorem async_task_holds_no_device_ownership (d : Driver) (args : List JsVal) (w : World)
    (h1 : w.device.refCount = 1) (h2 : w.device.destructed = false) :
    (Sweep.step d Method.scan args w).1.device = w.device ∧
    ((Sweep.step d Method.scan args w).1.destroySession).device.destructed = true := by
  have hdev : (Sweep.step d Method.scan args w).1.device = w.device := by
    simp only [Sweep.step]
    split <;> rfl
  refine ⟨hdev, ?_⟩
  simp [World.destroySession, hdev, h1, h2]

/-- Witness for `async_task_holds_no_device_ownership` at a concrete state. -/
theorem async_task_holds_no_device_ownership_witness :
    (Sweep.step testDriver Method.scan [JsVal.num 5000, JsVal.fn] World.init).1.device = World.init.device ∧
    ((Sweep.step testDriver Method.scan [JsVal.num 5000, JsVal.fn] World.init).1.destroySession).device.destructed = true :=
  async_task_holds_no_device_ownership testDriver [JsVal.num 5000, JsVal.fn] World.init rfl rfl

/-- Claim C2, counterexample: in the sequence `scan(5000, cb)` then
`getMotorSpeed()`, the motor-speed driver command executes immediately —
before the scan read and before the continuation fires — so a synchronous
command issued while a task is outstanding is not deferred. -/
theorem sync_command_not_deferred_counterexample :
    scanThenGetMotorSpeed testDriver 5000 =
      [Event.queuedScan, Event.call DriverCall.getMotorSpeed,
       Event.call (DriverCall.getScan 5000), Event.fired] := by
  rfl

/-- Claim C2, amended: no serialization exists — for every driver and
timeout, the trace of `scan(t, cb); getMotorSpeed()` begins with the queue
mark immediately followed by the motor-speed driver call, with the
continuation firing only at the very end; the synchronous command executes
against the handle while the task is outstanding. -/
theorem sync_command_precedes_continuation (d : Driver) (t : Int) :
    ∃ mid, scanThenGetMotorSpeed d t
      = Event.queuedScan :: Event.call DriverCall.getMotorSpeed :: (mid ++ [Event.fired]) := by
  rcases h1 : d.motorSpeed with m | v <;> rcases h2 : d.getScanRes t with e | s
  · exact ⟨[Event.call DriverCall.errorMessage, Event.call DriverCall.errorDestruct,
      Event.call (DriverCall.getScan t), Event.call DriverCall.errorMessage,
      Event.call DriverCall.errorDestruct], by
      simp [scanThenGetMotorSpeed, getMotorSpeed, AsyncScanWorker.execute, h1, h2]⟩
  · exact ⟨[Event.call DriverCall.errorMessage, Event.call DriverCall.errorDestruct,
      Event.call (DriverCall.getScan t)], by
      simp [scanThenGetMotorSpeed, getMotorSpeed, AsyncScanWorker.execute, h1, h2]⟩
  · exact ⟨[Event.call (DriverCall.getScan t), Event.call DriverCall.errorMessage,
      Event.call DriverCall.errorDestruct], by
      simp [scanThenGetMotorSpeed, getMotorSpeed, AsyncScanWorker.execute, h1, h2]⟩
  · exact ⟨[Event.call (DriverCall.getScan t)], by
      simp [scanThenGetMotorSpeed, getMotorSpeed, AsyncScanWorker.execute, h1, h2]⟩

/-- Claim C3, failing input: `setMotorSpeed` called with the single
non-number argument `"fast"` is NOT rejected with a type error — the
argument guard uses `&&` where the claim requires `||` — and the driver
call `sweep_device_set_motor_speed` is attempted (with the coerced value
0). -/
theorem setMotorSpeed_nonnumber_reaches_driver :
    (setMotorSpeed testDriver [JsVal.str "fast"]).2 = [DriverCall.setMotorSpeed 0] ∧
    (setMotorSpeed testDriver [JsVal.str "fast"]).1 = SyncOutcome.ret none := by
  refine ⟨rfl, rfl⟩

/-- Claim C4: a successful scan of N driver samples invokes the
continuation with exactly those N records, each carrying the angle and
distance the driver reported at that index, in driver order — the
marshalling loop is the identity map on the sample sequence. -/
theorem scan_success_marshals_samples_in_order (d : Driver) (t : Int) (samples : List Sample)
    (h : d.getScanRes t = Except.ok samples) :
    workComplete (AsyncScanWorker.execute d { timeout := t })
      = CallbackInvocation.ok (samples.map fun s => { angle := s.angle, distance := s.distance }) := by
  have hmap : handleOKCallback samples
      = samples.map fun s => ({ angle := s.angle, distance := s.distance } : Record) := by
    simp only [handleOKCallback, sweep_scan_get_number_of_samples, sweep_scan_get_angle,
      sweep_scan_get_distance]
    exact range_map_getD samples default
      (fun s => ({ angle := s.angle, distance := s.distance } : Record))
  simp [AsyncScanWorker.execute, h, workComplete, hmap]

/-- Witness for `scan_success_marshals_samples_in_order` on the scripted
two-sample driver. -/
theorem scan_success_marshals_samples_in_order_witness :
    workComplete (AsyncScanWorker.execute testDriver { timeout := 1000 })
      = CallbackInvocation.ok (([⟨90, 20⟩, ⟨180, 40⟩] : List Sample).map
          fun s => { angle := s.angle, distance := s.distance }) :=
  scan_success_marshals_samples_in_order testDriver 1000 [⟨90, 20⟩, ⟨180, 40⟩] rfl

/-- Claim C5: when the driver reports an error (timeout included) the
continuation receives exactly the driver message in its error slot and no
sample sequence; on success the error slot is null (the `ok` invocation). -/
theorem scan_error_propagates_driver_message (d : Driver) (t : Int) :
    (∀ msg, d.getScanRes t = Except.error msg →
      workComplete (AsyncScanWorker.execute d { timeout := t }) = CallbackInvocation.err msg) ∧
    (∀ samples, d.getScanRes t = Except.ok samples →
      ∃ records, workComplete (AsyncScanWorker.execute d { timeout := t })
        = CallbackInvocation.ok records) := by
  constructor
  · intro msg h
    simp [AsyncScanWorker.execute, h, workComplete]
  · intro samples h
    refine ⟨handleOKCallback samples, ?_⟩
    simp [AsyncScanWorker.execute, h, workComplete]

/-- Witness for `scan_error_propagates_driver_message` on the timing-out
driver. -/
theorem scan_error_propagates_driver_message_witness :
    workComplete (AsyncScanWorker.execute failDriver { timeout := 5 })
      = CallbackInvocation.err "Device timed out waiting for scan" :=
  (scan_error_propagates_driver_message failDriver 5).1 "Device timed out waiting for scan" rfl

/-- Claim C6: every synchronous operation called with valid arguments
throws exactly when the driver reports an error, the thrown error carries
the driver message verbatim, and the driver command is issued exactly once
per call (no retry, no swallowing). -/
theorem sync_ops_fail_iff_driver_reports_error (d : Driver) (hz : Int) :
    ((startScanning d []).1 = match d.startScanningErr with
        | some m => SyncOutcome.thrown m
        | none => SyncOutcome.ret none) ∧
    ((startScanning d []).2.count DriverCall.startScanning = 1) ∧
    ((stopScanning d []).1 = match d.stopScanningErr with
        | some m => SyncOutcome.thrown m
        | none => SyncOutcome.ret none) ∧
    ((stopScanning d []).2.count DriverCall.stopScanning = 1) ∧
    ((getMotorSpeed d []).1 = match d.motorSpeed with
        | Except.error m => SyncOutcome.thrown m
        | Except.ok v => SyncOutcome.ret (some v)) ∧
    ((getMotorSpeed d []).2.count DriverCall.getMotorSpeed = 1) ∧
    ((setMotorSpeed d [JsVal.num hz]).1
        = match d.setMotorSpeedErr (JsVal.toInt32 (JsVal.num hz)) with
        | some m => SyncOutcome.thrown m
        | none => SyncOutcome.ret none) ∧
    ((setMotorSpeed d [JsVal.num hz]).2.count
        (DriverCall.setMotorSpeed (JsVal.toInt32 (JsVal.num hz))) = 1) ∧
    ((getSampleRate d []).1 = match d.sampleRate with
        | Except.error m => SyncOutcome.thrown m
        | Except.ok v => SyncOutcome.ret (some v)) ∧
    ((getSampleRate d []).2.count DriverCall.getSampleRate = 1) ∧
    ((reset d []).1 = match d.resetErr with
        | some m => SyncOutcome.thrown m
        | none => SyncOutcome.ret none) ∧
    ((reset d []).2.count DriverCall.reset = 1) := by
  refine ⟨?_, ?_, ?_, ?_, ?_, ?_, ?_, ?_, ?_, ?_, ?_, ?_⟩
  · cases h : d.startScanningErr <;> simp [startScanning, h]
  · cases h : d.startScanningErr <;> simp [startScanning, h]
  · cases h : d.stopScanningErr <;> simp [stopScanning, h]
  · cases h : d.stopScanningErr <;> simp [stopScanning, h]
  · cases h : d.motorSpeed <;> simp [getMotorSpeed, h]
  · cases h : d.motorSpeed <;> simp [getMotorSpeed, h]
  · cases h : d.setMotorSpeedErr (JsVal.toInt32 (JsVal.num hz)) <;> simp [setMotorSpeed, h]
  · cases h : d.setMotorSpeedErr (JsVal.toInt32 (JsVal.num hz)) <;> simp [setMotorSpeed, h]
  · cases h : d.sampleRate <;> simp [getSampleRate, h]
  · cases h : d.sampleRate <;> simp [getSampleRate, h]
  · cases h : d.resetErr <;> simp [reset, h]
  · cases h : d.resetErr <;> simp [reset, h]

/-- Claim C7: when the driver reports no error, `getMotorSpeed` and
`getSampleRate` return exactly the integer the driver produced,
unchanged. -/
theorem getters_return_driver_value_unchanged (d : Driver) :
    (∀ v, d.motorSpeed = Except.ok v → (getMotorSpeed d []).1 = SyncOutcome.ret (some v)) ∧
    (∀ v, d.sampleRate = Except.ok v → (getSampleRate d []).1 = SyncOutcome.ret (some v)) := by
  constructor
  · intro v h
    simp [getMotorSpeed, h]
  · intro v h
    simp [getSampleRate, h]

/-- Witness for `getters_return_driver_value_unchanged` on the scripted
driver (motor speed 5 Hz). -/
theorem getters_return_driver_value_unchanged_witness :
    (getMotorSpeed testDriver []).1 = SyncOutcome.ret (some 5) :=
  (getters_return_driver_value_unchanged testDriver).1 5 rfl

/-- Claim C8: when the driver reports a construction error — on the
auto-detect path or the explicit (port, baud, timeout) path — `Sweep::New`
throws the construction error, wraps no object, and
`sweep_device_destruct` is never called on the handle that failed to
construct. -/
theorem failed_construction_produces_no_session (d : Driver)
    (port : String) (baud timeoutMs : Int) :
    (d.constructSimpleOk = false →
      (Sweep.New d []).1 = NewOutcome.thrown "device construction failed" ∧
      DriverCall.destructDevice ∉ (Sweep.New d []).2) ∧
    (d.constructConfigOk port (JsVal.toInt32 (JsVal.num baud))
        (JsVal.toInt32 (JsVal.num timeoutMs)) = false →
      (Sweep.New d [JsVal.str port, JsVal.num baud, JsVal.num timeoutMs]).1
          = NewOutcome.thrown "device construction failed" ∧
      DriverCall.destructDevice ∉
        (Sweep.New d [JsVal.str port, JsVal.num baud, JsVal.num timeoutMs]).2) := by
  constructor
  · intro h
    simp [Sweep.New, Sweep.ctorSimple, h]
  · intro h
    simp [Sweep.New, Sweep.ctorConfig, JsVal.isString, JsVal.isNumber, JsVal.asString, h]

/-- Witness for `failed_construction_produces_no_session` on the failing
driver, auto-detect path. -/
theorem failed_construction_produces_no_session_witness :
    (Sweep.New failDriver []).1 = NewOutcome.thrown "device construction failed" ∧
    DriverCall.destructDevice ∉ (Sweep.New failDriver []).2 :=
  (failed_construction_produces_no_session failDriver "/dev/ttyUSB0" 115200 1000).1 rfl

/-- Claim C9, counterexample: the auto-detect constructor with a failing
driver produces an error handle (the construction result is an error) yet
neither reads its message nor calls `sweep_error_destruct` — the error
resource outlives the call. -/
theorem ctor_error_resource_not_released :
    (Sweep.ctorSimple failDriver).1 = Except.error "device construction failed" ∧
    DriverCall.errorMessage ∉ (Sweep.ctorSimple failDriver).2 ∧
    DriverCall.errorDestruct ∉ (Sweep.ctorSimple failDriver).2 := by
  refine ⟨rfl, by decide, by decide⟩

/-- Claim C9, amended: every operation other than construction, when the
driver reports an error, reads the message and then destructs the error
resource exactly once, in that order, within the same call; the two
constructors never release an error resource (nor read its message). -/
theorem error_resource_released_within_call (d : Driver) (hz t : Int)
    (port : String) (baud timeoutMs : Int) :
    (∀ m, d.startScanningErr = some m → (startScanning d []).2
        = [DriverCall.startScanning, DriverCall.errorMessage, DriverCall.errorDestruct]) ∧
    (∀ m, d.stopScanningErr = some m → (stopScanning d []).2
        = [DriverCall.stopScanning, DriverCall.errorMessage, DriverCall.errorDestruct]) ∧
    (∀ m, d.motorSpeed = Except.error m → (getMotorSpeed d []).2
        = [DriverCall.getMotorSpeed, DriverCall.errorMessage, DriverCall.errorDestruct]) ∧
    (∀ m, d.setMotorSpeedErr (JsVal.toInt32 (JsVal.num hz)) = some m →
        (setMotorSpeed d [JsVal.num hz]).2
        = [DriverCall.setMotorSpeed (JsVal.toInt32 (JsVal.num hz)),
           DriverCall.errorMessage, DriverCall.errorDestruct]) ∧
    (∀ m, d.sampleRate = Except.error m → (getSampleRate d []).2
        = [DriverCall.getSampleRate, DriverCall.errorMessage, DriverCall.errorDestruct]) ∧
    (∀ m, d.resetErr = some m → (reset d []).2
        = [DriverCall.reset, DriverCall.errorMessage, DriverCall.errorDestruct]) ∧
    (∀ m, d.getScanRes t = Except.error m →
        (AsyncScanWorker.execute d { timeout := t }).calls
        = [DriverCall.getScan t, DriverCall.errorMessage, DriverCall.errorDestruct]) ∧
    DriverCall.errorDestruct ∉ (Sweep.ctorSimple d).2 ∧
    DriverCall.errorDestruct ∉ (Sweep.ctorConfig d port baud timeoutMs).2 := by
  refine ⟨?_, ?_, ?_, ?_, ?_, ?_, ?_, ?_, ?_⟩
  · intro m h
    simp [startScanning, h]
  · intro m h
    simp [stopScanning, h]
  · intro m h
    simp [getMotorSpeed, h]
  · intro m h
    simp [setMotorSpeed, h]
  · intro m h
    simp [getSampleRate, h]
  · intro m h
    simp [reset, h]
  · intro m h
    simp [AsyncScanWorker.execute, h]
  · cases h : d.constructSimpleOk <;> simp [Sweep.ctorSimple, h]
  · cases h : d.constructConfigOk port baud timeoutMs <;> simp [Sweep.ctorConfig, h]

/-- Witness for `error_resource_released_within_call` on the failing
driver, `startScanning` component. -/
theorem error_resource_released_within_call_witness :
    (startScanning failDriver []).2
      = [DriverCall.startScanning, DriverCall.errorMessage, DriverCall.errorDestruct] :=
  (error_resource_released_within_call failDriver 3 5 "p" 0 0).1
    "Device failed to start scanning" rfl

/-- Claim C10: the `device` member is assigned exactly once, by the
constructor (one shared owner, not yet destructed), and every public
method leaves it unchanged — all operations on one wrapper act on the same
native device. -/
theorem device_field_assigned_once_then_read_only
    (d : Driver) (m : Method) (args : List JsVal) (w : World) :
    (Sweep.step d m args w).1.device = w.device ∧
    World.init.device = { refCount := 1, destructed := false } := by
  refine ⟨?_, rfl⟩
  cases m <;> simp only [Sweep.step]
  split <;> rfl
